import Mathlib

/-!
# Verification of the user-registration / referral service (src/main.py)

Shallow embedding of the FastAPI + SQLAlchemy application in `src/main.py`.
The database is modelled as an in-memory list of user rows (insertion order
models the order in which the SQLite table returns unordered queries), and
each HTTP handler becomes a pure function.  Python runtime errors that the
handlers can actually raise (TypeError from subscripting None on line 125,
ZeroDivisionError from `//` on line 132) are modelled as explicit error
values, alongside `HTTPException` with its status code and detail string.

One SQLAlchemy subtlety that matters: `UserModel.referral_code ==
referral_code` where `referral_code` is the Python value `None` renders as
`referral_code IS NULL`, which matches every row whose stored code is NULL.
`Option String` equality (`none == none` is `true`, `some x == some y` iff
`x == y`, mixed cases `false`) reproduces exactly this semantics, including
the ordinary SQL `=` behaviour for non-NULL codes.
-/

deriving instance DecidableEq for Except

namespace RefService

/-- Pydantic `UserCreate` payload: name, email, password, optional
referral code (src/main.py lines 20-27). -/
structure UserCreate where
  name : String
  email : String
  password : String
  referral_code : Option String
deriving DecidableEq

/-- A row of the `users` table (`UserModel`, src/main.py lines 50-58).
The timestamp is an opaque clock value. -/
structure UserRec where
  id : String
  name : String
  email : String
  password : String
  referral_code : Option String
  timestamp : Nat
deriving DecidableEq

/-- A row of the `referrals` table (`ReferralModel`, src/main.py lines
60-68); defined in storage but never read or written by any endpoint. -/
structure ReferralRec where
  id : String
  user_id : String
  referred_user_id : String
deriving DecidableEq

/-- The persistent state: the two tables created on lines 50-71. -/
structure DB where
  users : List UserRec
  referrals : List ReferralRec
deriving DecidableEq

/-- The pydantic response model `User` (src/main.py lines 29-34): every
endpoint with `response_model=User` serialises a row into exactly these
fields - the stored plain-text password included. -/
structure UserOut where
  name : String
  email : String
  password : String
  referral_code : Option String
  id : String
  timestamp : Nat
deriving DecidableEq

/-- Serialisation of a database row through `response_model=User`:
field-for-field copy, password included. -/
def serializeUser (r : UserRec) : UserOut :=
  ⟨r.name, r.email, r.password, r.referral_code, r.id, r.timestamp⟩

/-- How a handler invocation ends when it does not return a value:
an `HTTPException(status_code, detail)`, or an uncaught Python runtime
error.  `typeErrorNoneSub` is the TypeError raised by
`check_current_user_refrel[0]` when the id-query returned `None`
(src/main.py line 125); `zeroDivErr` is the ZeroDivisionError raised by
`// per_page` when `per_page == 0` (src/main.py line 132). -/
inductive Err where
  | http (status : Nat) (detail : String)
  | typeErrorNoneSub
  | zeroDivErr
deriving DecidableEq

/-- `db.query(UserModel).filter(UserModel.email == user.email).first()`
(src/main.py line 92). -/
def queryUserByEmail (db : DB) (e : String) : Option UserRec :=
  (db.users.filter (fun r => r.email == e)).head?

/-- `db.query(UserModel).filter(UserModel.id == user_id).first()`
(src/main.py lines 114 and 124; line 124 selects only the
`referral_code` column of that first row). -/
def findUserById (db : DB) (uid : String) : Option UserRec :=
  (db.users.filter (fun r => r.id == uid)).head?

/-- The row constructed on src/main.py line 96:
`UserModel(**user.dict(), id=str(uuid.uuid4()), timestamp=datetime.now())`.
The generated uuid and the clock reading are inputs of the model. -/
def mkUser (uc : UserCreate) (newId : String) (now : Nat) : UserRec :=
  ⟨newId, uc.name, uc.email, uc.password, uc.referral_code, now⟩

/-- `POST /users/` (src/main.py lines 89-100): reject a duplicate email
with HTTP 400, otherwise insert the new row and return it serialised.
Returns the response together with the state after the call. -/
def create_user (db : DB) (uc : UserCreate) (newId : String) (now : Nat) :
    Except Err UserOut × DB :=
  match queryUserByEmail db uc.email with
  | some _ => (.error (.http 400 "User with this email already exists"), db)
  | none =>
      let r := mkUser uc newId now
      (.ok (serializeUser r), { db with users := db.users ++ [r] })

/-- `GET /getall_users/` (src/main.py lines 104-107). -/
def get_all_users (db : DB) : List UserOut :=
  db.users.map serializeUser

/-- `GET /users/{user_id}` (src/main.py lines 112-117). -/
def read_user (db : DB) (uid : String) : Except Err UserOut :=
  match findUserById db uid with
  | none => .error (.http 404 "User not found")
  | some r => .ok (serializeUser r)

/-- The referral filter of src/main.py line 127:
`UserModel.referral_code == referral_code`.  `Option` equality models
SQLAlchemy rendering `== None` as `IS NULL` (see the file header). -/
def matchList (db : DB) (code : Option String) : List UserRec :=
  db.users.filter (fun r => r.referral_code == code)

/-- `db.query(UserModel).filter(UserModel.referral_code == referral_code).all()`
(src/main.py line 127).  `.all()` always returns a Python list, never
`None`; the `Option` wrapper records that the handler nevertheless checks
the result against `None` on line 128. -/
def queryReferralAll (db : DB) (code : Option String) : Option (List UserRec) :=
  some (matchList db code)

/-- Python `//`: floor division, raising ZeroDivisionError on a zero
divisor (src/main.py line 132). -/
def pyFloorDiv (a b : Int) : Except Err Int :=
  if b == 0 then .error .zeroDivErr else .ok (Int.fdiv a b)

/-- Clamp one bound of a Python slice `l[a:b]` (step 1) into `[0, n]`:
a negative index counts from the end. -/
def sliceIdx (n : Nat) (i : Int) : Nat :=
  (if i < 0 then max ((n : Int) + i) 0 else min i (n : Int)).toNat

/-- Python list slicing `l[a:b]` with step 1 (src/main.py line 139). -/
def pySlice {α : Type} (l : List α) (a b : Int) : List α :=
  (l.drop (sliceIdx l.length a)).take (sliceIdx l.length b - sliceIdx l.length a)

/-- `GET /referrals/{user_id}?page=&per_page=` (src/main.py lines 122-139),
translated line by line:
line 124 - select the referral_code of the first row with the given id;
line 125 - subscript that row: TypeError when the query returned None;
line 127 - select all rows with an equal (or both-NULL) referral code;
line 128 - dead check of that list against None (404 "Referral not found");
line 131-132 - `total_pages = (total_records + per_page - 1) // per_page`;
line 134 - 404 "Invalid page number" when `page < 1 or page > total_pages`;
lines 137-139 - return `referral[start_index:end_index]` serialised. -/
def read_referral (db : DB) (user_id : String) (page : Int) (per_page : Int) :
    Except Err (List UserOut) :=
  match findUserById db user_id with
  | none => .error .typeErrorNoneSub
  | some u =>
      let referral_code := u.referral_code
      match queryReferralAll db referral_code with
      | none => .error (.http 404 "Referral not found")
      | some referral =>
          let total_records : Int := referral.length
          match pyFloorDiv (total_records + per_page - 1) per_page with
          | .error e => .error e
          | .ok total_pages =>
              if page < 1 || page > total_pages then
                .error (.http 404 "Invalid page number")
              else
                let start_index := (page - 1) * per_page
                let end_index := min (start_index + per_page) total_records
                .ok ((pySlice referral start_index end_index).map serializeUser)

/-- Recognises the response of the dead branch on src/main.py lines
128-129: `HTTPException(404, "Referral not found")`. -/
def isReferralNotFound (r : Except Err (List UserOut)) : Bool :=
  match r with
  | .error (.http 404 "Referral not found") => true
  | _ => false

/-! ## Concrete test fixtures -/

/-- User A of the worked example: referral code "X". -/
def userA : UserRec := ⟨"idA", "A", "a@mail", "pwA", some "X", 0⟩

/-- User B of the worked example: the same referral code "X". -/
def userB : UserRec := ⟨"idB", "B", "b@mail", "pwB", some "X", 1⟩

/-- A third user with a different referral code, to exercise the filter. -/
def userC : UserRec := ⟨"idC", "C", "c@mail", "pwC", some "Y", 2⟩

/-- The worked-example state: users A, B (code "X") and C (code "Y"). -/
def exampleDB : DB := ⟨[userA, userB, userC], []⟩

/-- A user whose referral_code is not set (NULL in the table). -/
def userN : UserRec := ⟨"idN", "N", "n@mail", "pwN", none, 0⟩

/-- A state holding only the NULL-code user. -/
def dbN : DB := ⟨[userN], []⟩

/-! ## Basic lemmas about the embedded operations -/

lemma findUserById_mem {db : DB} {uid : String} {u : UserRec}
    (h : findUserById db uid = some u) : u ∈ db.users := by
  unfold findUserById at h
  have hmem : u ∈ db.users.filter (fun r => r.id == uid) := by
    cases e : db.users.filter (fun r => r.id == uid) with
    | nil => rw [e] at h; simp at h
    | cons x xs =>
        rw [e] at h
        simp only [List.head?_cons, Option.some.injEq] at h
        subst h
        exact List.mem_cons_self x xs
  exact (List.mem_filter.mp hmem).1

lemma mem_matchList {db : DB} {c : Option String} {r : UserRec} :
    r ∈ matchList db c ↔ r ∈ db.users ∧ r.referral_code = c := by
  simp [matchList, List.mem_filter]

lemma self_mem_matchList {db : DB} {uid : String} {u : UserRec}
    (h : findUserById db uid = some u) : u ∈ matchList db u.referral_code :=
  mem_matchList.mpr ⟨findUserById_mem h, rfl⟩

lemma mem_of_mem_pySlice {α : Type} {l : List α} {a b : Int} {x : α}
    (h : x ∈ pySlice l a b) : x ∈ l :=
  List.mem_of_mem_drop (List.mem_of_mem_take h)

/-- With `per_page = 0`, the handler reaches the division on line 132 of
src/main.py and raises ZeroDivisionError, whatever the page number. -/
lemma read_referral_zero_per_page {db : DB} {uid : String} {u : UserRec}
    (page : Int) (hu : findUserById db uid = some u) :
    read_referral db uid page 0 = .error .zeroDivErr := by
  unfold read_referral queryReferralAll pyFloorDiv
  rw [hu]
  simp

/-- Unfolding of the referral endpoint once the target user is found and
`per_page` is non-zero: everything reduces to the match list, the page
bound, and the slice. -/
lemma read_referral_of_found {db : DB} {uid : String} {u : UserRec}
    (page pp : Int) (hu : findUserById db uid = some u) (hpp : pp ≠ 0) :
    read_referral db uid page pp =
      if page < 1 || page > Int.fdiv (((matchList db u.referral_code).length : Int) + pp - 1) pp then
        .error (.http 404 "Invalid page number")
      else
        .ok ((pySlice (matchList db u.referral_code) ((page - 1) * pp)
              (min ((page - 1) * pp + pp) ((matchList db u.referral_code).length : Int))).map
            serializeUser) := by
  unfold read_referral queryReferralAll pyFloorDiv
  rw [hu]
  simp [hpp]

/-- The `(total_records + per_page - 1) // per_page` of src/main.py line
132 computes the ceiling of `total_records / per_page` for a positive
`per_page`. -/
lemma fdiv_ceil_eq (m : Nat) (pp : Int) (hpp : 1 ≤ pp) :
    Int.fdiv ((m : Int) + pp - 1) pp = ⌈(m : ℚ) / (pp : ℚ)⌉ := by
  have hpp0 : (0 : Int) < pp := by omega
  have hfd : Int.fdiv ((m : Int) + pp - 1) pp = ((m : Int) + pp - 1) / pp :=
    Int.fdiv_eq_ediv _ (by omega)
  have hdm : pp * (((m : Int) + pp - 1) / pp) + ((m : Int) + pp - 1) % pp
      = (m : Int) + pp - 1 := Int.ediv_add_emod _ _
  have hr0 : 0 ≤ ((m : Int) + pp - 1) % pp := Int.emod_nonneg _ (by omega)
  have hr1 : ((m : Int) + pp - 1) % pp < pp := Int.emod_lt_of_pos _ hpp0
  set q : Int := ((m : Int) + pp - 1) / pp with hq
  have h1 : (m : Int) ≤ q * pp := by rw [mul_comm]; omega
  have h2 : (q - 1) * pp < (m : Int) := by
    have h2' : q * pp - pp < (m : Int) := by rw [mul_comm]; omega
    calc (q - 1) * pp = q * pp - pp := by ring
    _ < (m : Int) := h2'
  rw [hfd]
  symm
  rw [Int.ceil_eq_iff]
  have hppQ : (0 : ℚ) < (pp : ℚ) := by exact_mod_cast hpp0
  constructor
  · rw [lt_div_iff₀ hppQ]
    exact_mod_cast h2
  · rw [div_le_iff₀ hppQ]
    exact_mod_cast h1

/-- A page slice `l[a : min (a + pp) len]` holds at most `pp` elements. -/
lemma length_pySlice_page {α : Type} (l : List α) (a pp : Int)
    (ha : 0 ≤ a) (hpp : 0 ≤ pp) :
    ((pySlice l a (min (a + pp) (l.length : Int))).length : Int) ≤ pp := by
  unfold pySlice sliceIdx
  simp only [List.length_take, List.length_drop]
  rw [if_neg (by omega), if_neg (by omega)]
  omega

/-! ## The claims -/

/-- Claim C1: for every existing user `u`, the referral endpoint selects
exactly the users whose referral_code equals the code of `u` (the match
list is the code-equality filter over the users table), every user a
valid page returns carries that same code, and the selection always
contains `u` itself (self-match).  In the worked example, users A and B
share code "X" and page 1 for the id of A returns both. -/
theorem C1_referral_selection :
    (∀ (db : DB) (uid : String) (u : UserRec) (page pp : Int) (out : List UserOut),
        findUserById db uid = some u →
        read_referral db uid page pp = .ok out →
        ∀ o ∈ out, o.referral_code = u.referral_code) ∧
    (∀ (db : DB) (u : UserRec) (r : UserRec),
        r ∈ matchList db u.referral_code ↔ r ∈ db.users ∧ r.referral_code = u.referral_code) ∧
    (∀ (db : DB) (uid : String) (u : UserRec),
        findUserById db uid = some u → u ∈ matchList db u.referral_code) ∧
    read_referral exampleDB "idA" 1 20 = .ok [serializeUser userA, serializeUser userB] := by
  refine ⟨?_, fun db u r => mem_matchList, fun db uid u hu => self_mem_matchList hu, by decide⟩
  intro db uid u page pp out hu hok o ho
  by_cases hpp : pp = 0
  · subst hpp
    rw [read_referral_zero_per_page page hu] at hok
    exact absurd hok (by simp)
  · rw [read_referral_of_found page pp hu hpp] at hok
    split at hok
    · exact absurd hok (by simp)
    · injection hok with hout
      subst hout
      rcases List.mem_map.mp ho with ⟨r, hr, rfl⟩
      have hrm : r ∈ matchList db u.referral_code := mem_of_mem_pySlice hr
      simpa [serializeUser] using (mem_matchList.mp hrm).2

/-- Claim C2: pagination of the referral endpoint for an existing user
with `m` matching users and positive page size `pp`: the page count
`tp = (m + pp - 1) // pp` equals the ceiling of `m / pp`; a page outside
`[1, tp]` fails with the 404 "Invalid page number"; a page inside the
range returns exactly the slice of the match list from `(page-1)*pp` up
to `min((page-1)*pp + pp, m)`, hence at most `pp` users. -/
theorem C2_pagination (db : DB) (uid : String) (u : UserRec) (page pp m tp : Int)
    (hu : findUserById db uid = some u) (hpp : 1 ≤ pp)
    (hm : m = ((matchList db u.referral_code).length : Int))
    (htp : tp = Int.fdiv (m + pp - 1) pp) :
    tp = ⌈(((matchList db u.referral_code).length : ℚ)) / (pp : ℚ)⌉ ∧
    ((page < 1 ∨ page > tp) →
        read_referral db uid page pp = .error (.http 404 "Invalid page number")) ∧
    (1 ≤ page → page ≤ tp →
        read_referral db uid page pp =
          .ok ((pySlice (matchList db u.referral_code) ((page - 1) * pp)
                (min ((page - 1) * pp + pp) m)).map serializeUser) ∧
        ∀ out, read_referral db uid page pp = .ok out → (out.length : Int) ≤ pp) := by
  subst hm htp
  have hpp0 : pp ≠ 0 := by omega
  refine ⟨fdiv_ceil_eq _ pp hpp, ?_, ?_⟩
  · intro h
    rw [read_referral_of_found page pp hu hpp0]
    split
    · rfl
    · next hcond =>
        exfalso
        simp only [Bool.or_eq_true, decide_eq_true_eq, not_or, not_lt] at hcond
        rcases h with h | h <;> omega
  · intro h1 h2
    have hok : read_referral db uid page pp =
        .ok ((pySlice (matchList db u.referral_code) ((page - 1) * pp)
              (min ((page - 1) * pp + pp)
                ((matchList db u.referral_code).length : Int))).map serializeUser) := by
      rw [read_referral_of_found page pp hu hpp0]
      split
      · next hcond =>
          exfalso
          simp only [Bool.or_eq_true, decide_eq_true_eq] at hcond
          rcases hcond with h | h <;> omega
      · rfl
    refine ⟨hok, ?_⟩
    intro out hout
    rw [hok] at hout
    injection hout with hout
    subst hout
    rw [List.length_map]
    exact length_pySlice_page _ _ pp (mul_nonneg (by omega) (by omega)) (by omega)

/-- Witness for C2 at a concrete state: page size 1 on the two-match
example, page 1 returns exactly user A (one user, the first slice). -/
theorem C2_pagination_witness :
    read_referral exampleDB "idA" 1 1 =
      .ok ((pySlice (matchList exampleDB userA.referral_code) ((1 - 1) * 1)
            (min ((1 - 1) * 1 + 1) 2)).map serializeUser) := by
  have h := C2_pagination exampleDB "idA" userA 1 1 2 2
    (by decide) (by decide) (by decide) (by decide)
  exact (h.2.2 (by decide) (by decide)).1

/-- Claim C3 counterexample: the claim says a user with no referral_code
yields zero matches and fails with 404 on every page, page 1 included.
In the state holding only the NULL-code user N, the endpoint instead
succeeds on page 1 and returns N: SQLAlchemy renders `== None` as
`IS NULL`, so N matches itself. -/
theorem C3_counterexample :
    findUserById dbN "idN" = some userN ∧ userN.referral_code = none ∧
    read_referral dbN "idN" 1 20 = .ok [serializeUser userN] := by decide

/-- Claim C3 as amended: for an existing user with no referral_code the
filter `referral_code == None` (IS NULL) matches exactly the users whose
code is NULL - the target user among them - so the match count is at
least one and page 1 with a positive page size succeeds with a non-empty
result instead of failing. -/
theorem C3_null_code_self_match (db : DB) (uid : String) (u : UserRec) (pp : Int)
    (hu : findUserById db uid = some u) (hc : u.referral_code = none)
    (hpp : 1 ≤ pp) :
    u ∈ matchList db u.referral_code ∧
    (∀ r ∈ matchList db u.referral_code, r.referral_code = none) ∧
    ∃ out, read_referral db uid 1 pp = .ok out ∧ out ≠ [] := by
  have hmem := self_mem_matchList hu
  refine ⟨hmem, fun r hr => hc ▸ (mem_matchList.mp hr).2, ?_⟩
  have hm1 : 1 ≤ (matchList db u.referral_code).length :=
    List.length_pos.mpr (fun he => by rw [he] at hmem; cases hmem)
  have hpp0 : pp ≠ 0 := by omega
  have htp : 1 ≤ Int.fdiv (((matchList db u.referral_code).length : Int) + pp - 1) pp := by
    rw [fdiv_ceil_eq _ pp hpp]
    refine Int.ceil_pos.mpr (div_pos ?_ ?_)
    · exact_mod_cast hm1
    · exact_mod_cast hpp
  rw [read_referral_of_found 1 pp hu hpp0]
  split
  · next hcond =>
      exfalso
      simp only [Bool.or_eq_true, decide_eq_true_eq] at hcond
      rcases hcond with h | h <;> omega
  · refine ⟨_, rfl, fun hnil => ?_⟩
    have hlen : 0 < (pySlice (matchList db u.referral_code) ((1 - 1) * pp)
        (min ((1 - 1) * pp + pp) ((matchList db u.referral_code).length : Int))).length := by
      unfold pySlice sliceIdx
      simp only [List.length_take, List.length_drop]
      rw [if_neg (by omega), if_neg (by omega)]
      omega
    rw [List.map_eq_nil_iff] at hnil
    rw [hnil] at hlen
    exact absurd hlen (by simp)

/-- Witness for the amended C3 at a concrete state: the NULL-code user N
matches itself and page 1 succeeds. -/
theorem C3_null_code_self_match_witness :
    userN ∈ matchList dbN userN.referral_code ∧
    (∀ r ∈ matchList dbN userN.referral_code, r.referral_code = none) ∧
    ∃ out, read_referral dbN "idN" 1 20 = .ok out ∧ out ≠ [] :=
  C3_null_code_self_match dbN "idN" userN 20 (by decide) (by decide) (by decide)

/-- Claim C4 counterexample: the claim says a missing user id gets a 404
at both lookup endpoints.  With an id present in no user row, `GET /users/{id}` does fail with the 404, but `GET /referrals/{id}` instead
dies with the TypeError of src/main.py line 125 (subscripting the `None`
returned by the id query), which is not an HTTP 404. -/
theorem C4_counterexample :
    read_user dbN "idZ" = .error (.http 404 "User not found") ∧
    read_referral dbN "idZ" 1 20 = .error .typeErrorNoneSub ∧
    read_referral dbN "idZ" 1 20 ≠ .error (.http 404 "User not found") := by
  decide

/-- Claim C4 as amended: for an id present in no user row, `GET /users/{id}` fails with the 404 "User not found", while `GET /referrals/{id}` raises the unhandled TypeError of line 125 for every
page and page size, instead of an HTTP 404. -/
theorem C4_missing_user (db : DB) (uid : String) (page pp : Int)
    (h : ∀ r ∈ db.users, r.id ≠ uid) :
    read_user db uid = .error (.http 404 "User not found") ∧
    read_referral db uid page pp = .error .typeErrorNoneSub := by
  have hf : findUserById db uid = none := by
    unfold findUserById
    rw [List.filter_eq_nil_iff.mpr (fun r hr => by simpa using h r hr)]
    rfl
  constructor
  · unfold read_user
    rw [hf]
  · unfold read_referral
    rw [hf]

/-- Witness for the amended C4 at a concrete state. -/
theorem C4_missing_user_witness :
    read_user dbN "idZ2" = .error (.http 404 "User not found") ∧
    read_referral dbN "idZ2" 3 7 = .error .typeErrorNoneSub :=
  C4_missing_user dbN "idZ2" 3 7 (by decide)

/-- Claim C5: when some stored user already has the requested email, user
creation fails with the 400 duplicate-email error and the state is
returned unchanged: no row is added and none is modified. -/
theorem C5_duplicate_email (db : DB) (uc : UserCreate) (newId : String) (now : Nat)
    (h : ∃ r ∈ db.users, r.email = uc.email) :
    create_user db uc newId now =
      (.error (.http 400 "User with this email already exists"), db) := by
  obtain ⟨r, hr, he⟩ := h
  unfold create_user queryUserByEmail
  cases e : db.users.filter (fun x => x.email == uc.email) with
  | nil =>
      exfalso
      have := List.filter_eq_nil_iff.mp e r hr
      simp [he] at this
  | cons x xs => rfl

/-- Witness for C5 at a concrete state: the email of user N is taken. -/
theorem C5_duplicate_email_witness :
    create_user dbN ⟨"M", "n@mail", "pw", none⟩ "id9" 7 =
      (.error (.http 400 "User with this email already exists"), dbN) :=
  C5_duplicate_email dbN ⟨"M", "n@mail", "pw", none⟩ "id9" 7 ⟨userN, by decide, rfl⟩

/-- Claim C6: round trip of create and fetch.  When no stored user has
the requested email (and the generated id is fresh, as the primary key
guarantees), creation succeeds, returns the created record serialised,
appends exactly that row, and fetching the returned id finds it again. -/
theorem C6_create_then_fetch (db : DB) (uc : UserCreate) (newId : String) (now : Nat)
    (hemail : ∀ r ∈ db.users, r.email ≠ uc.email)
    (hid : ∀ r ∈ db.users, r.id ≠ newId) :
    create_user db uc newId now =
      (.ok (serializeUser (mkUser uc newId now)),
        { db with users := db.users ++ [mkUser uc newId now] }) ∧
    read_user { db with users := db.users ++ [mkUser uc newId now] } newId =
      .ok (serializeUser (mkUser uc newId now)) := by
  constructor
  · unfold create_user queryUserByEmail
    rw [List.filter_eq_nil_iff.mpr (fun r hr => by simpa using hemail r hr)]
    rfl
  · unfold read_user findUserById
    dsimp only
    rw [List.filter_append,
      List.filter_eq_nil_iff.mpr (fun r hr => by simpa using hid r hr)]
    simp [mkUser]

/-- Witness for C6 at a concrete state: a fresh email and id over the
one-user state. -/
theorem C6_create_then_fetch_witness :
    create_user dbN ⟨"M", "m@mail", "pw", none⟩ "id9" 7 =
      (.ok (serializeUser (mkUser ⟨"M", "m@mail", "pw", none⟩ "id9" 7)),
        { dbN with users := dbN.users ++ [mkUser ⟨"M", "m@mail", "pw", none⟩ "id9" 7] }) ∧
    read_user { dbN with users := dbN.users ++ [mkUser ⟨"M", "m@mail", "pw", none⟩ "id9" 7] } "id9" =
      .ok (serializeUser (mkUser ⟨"M", "m@mail", "pw", none⟩ "id9" 7)) :=
  C6_create_then_fetch dbN ⟨"M", "m@mail", "pw", none⟩ "id9" 7 (by decide) (by decide)

/-- Claim C7: user records are immutable.  Creation either leaves the
users table unchanged (duplicate email) or appends exactly the one new
row, so every pre-existing row is still present, unchanged, afterwards;
listing returns the stored rows as they are; no operation writes the
referrals table. -/
theorem C7_records_immutable (db : DB) (uc : UserCreate) (newId : String) (now : Nat) :
    ((create_user db uc newId now).2.users = db.users ∨
      (create_user db uc newId now).2.users = db.users ++ [mkUser uc newId now]) ∧
    (∀ r ∈ db.users, r ∈ (create_user db uc newId now).2.users) ∧
    get_all_users db = db.users.map serializeUser ∧
    (create_user db uc newId now).2.referrals = db.referrals := by
  unfold create_user
  cases h : queryUserByEmail db uc.email with
  | some r => exact ⟨Or.inl rfl, fun s hs => hs, rfl, rfl⟩
  | none => exact ⟨Or.inr rfl, fun s hs => List.mem_append_left _ hs, rfl, rfl⟩

/-- Claim C10: every endpoint that returns user data serialises the full
row through the pydantic `User` model, whose fields include the stored
plain-text password: serialisation copies the password verbatim, the
create response carries the submitted password, and every user object any
endpoint returns is the field-for-field serialisation of a stored row. -/
theorem C10_password_exposure :
    (∀ r : UserRec, (serializeUser r).password = r.password) ∧
    (∀ (db : DB) (uc : UserCreate) (i : String) (t : Nat) (out : UserOut) (db2 : DB),
        create_user db uc i t = (.ok out, db2) → out.password = uc.password) ∧
    (∀ (db : DB) (o : UserOut), o ∈ get_all_users db → ∃ r ∈ db.users, o = serializeUser r) ∧
    (∀ (db : DB) (uid : String) (o : UserOut),
        read_user db uid = .ok o → ∃ r ∈ db.users, o = serializeUser r) ∧
    (∀ (db : DB) (uid : String) (page pp : Int) (out : List UserOut),
        read_referral db uid page pp = .ok out →
        ∀ o ∈ out, ∃ r ∈ db.users, o = serializeUser r) := by
  refine ⟨fun r => rfl, ?_, ?_, ?_, ?_⟩
  · intro db uc i t out db2 h
    unfold create_user at h
    cases e : queryUserByEmail db uc.email with
    | some r => rw [e] at h; cases h
    | none =>
        rw [e] at h
        injection h with h1 h2
        injection h1 with h1
        rw [← h1]
        rfl
  · intro db o ho
    rcases List.mem_map.mp ho with ⟨r, hr, rfl⟩
    exact ⟨r, hr, rfl⟩
  · intro db uid o h
    unfold read_user at h
    cases e : findUserById db uid with
    | none => rw [e] at h; cases h
    | some r =>
        rw [e] at h
        injection h with h1
        exact ⟨r, findUserById_mem e, h1.symm⟩
  · intro db uid page pp out h o ho
    cases e : findUserById db uid with
    | none =>
        exfalso
        unfold read_referral at h
        rw [e] at h
        cases h
    | some u =>
        by_cases hpp : pp = 0
        · subst hpp
          rw [read_referral_zero_per_page page e] at h
          cases h
        · rw [read_referral_of_found page pp e hpp] at h
          split at h
          · cases h
          · injection h with h1
            subst h1
            rcases List.mem_map.mp ho with ⟨r, hr, rfl⟩
            exact ⟨r, (mem_matchList.mp (mem_of_mem_pySlice hr)).1, rfl⟩

/-- Claim C8: the referral endpoint never validates `per_page`; with
`per_page = 0` and any existing user, control reaches the unguarded
integer division on src/main.py line 132 and the handler dies with
ZeroDivisionError instead of returning an HTTP error. -/
theorem C8_per_page_zero_crash (db : DB) (uid : String) (u : UserRec) (page : Int)
    (hu : findUserById db uid = some u) :
    read_referral db uid page 0 = .error .zeroDivErr :=
  read_referral_zero_per_page page hu

/-- Witness for C8 at a concrete state: user A exists, so per_page 0
crashes. -/
theorem C8_per_page_zero_crash_witness :
    read_referral exampleDB "idA" 5 0 = .error .zeroDivErr :=
  C8_per_page_zero_crash exampleDB "idA" userA 5 (by decide)

/-- Claim C9: the "Referral not found" branch (src/main.py lines 128-129)
is unreachable: the `.all()` query yields a list, never None, so no input
whatsoever produces that 404; out-of-range pages are reported by the
other 404. -/
theorem C9_referral_not_found_unreachable (db : DB) (uid : String) (page pp : Int) :
    read_referral db uid page pp ≠ .error (.http 404 "Referral not found") := by
  unfold read_referral queryReferralAll pyFloorDiv
  cases hf : findUserById db uid with
  | none => simp
  | some u =>
      by_cases hpp : pp = 0
      · subst hpp; simp
      · have h0 : (pp == 0) = false := by simpa using hpp
        simp only [h0]
        split
        · next e heq => simp at heq
        · next tp heq => split <;> simp

end RefService
